import Mathlib

/-
Shallow embedding of the Faculty Selection System
(src/Faculty_DashBoard/app.py).

The application's persistent state is four flat CSV tables.  Rows of the
three tables whose schema is fixed by the code are embedded as Lean
structures with one `String` field per column (the app reads every CSV
with `dtype=str`).  Admin uploads and the load helpers, which manipulate
tables of arbitrary column sets, are embedded over a generic `DataFrame`
of a column-name list and rows of cell lists.

Each write path of the app is a full read-modify-write over one table:
the embedded operation takes the freshly reloaded table as an argument
and returns the table that is written back, following the source line by
line.  A `pd.read_csv` that may raise is embedded as an
`Option DataFrame` argument (`none` = the exception branch).
-/

namespace FacultyApp

/-- A row of student_choices.csv: header
Regd_No,Name,Year,Section,Subject_Code,Subject_Name,Faculty_Selected
(app.py line 31). -/
structure ChoiceRow where
  regdNo : String
  name : String
  year : String
  «section» : String
  subjectCode : String
  subjectName : String
  facultySelected : String
deriving DecidableEq, Repr

/-- A row of subjects.csv: header Year,Subject_Code,Subject_Name
(app.py line 29). -/
structure SubjectRow where
  year : String
  subjectCode : String
  subjectName : String
deriving DecidableEq, Repr

/-- A row of faculty_availability.csv: header
Faculty_Name,Subject_Code,Subject_Name,Available (app.py line 32). -/
structure AvailRow where
  facultyName : String
  subjectCode : String
  subjectName : String
  available : String
deriving DecidableEq, Repr

/-- One entry of the `selections` list built by the student form
(app.py line 438): subject code, subject name and the chosen faculty. -/
structure Selection where
  subjectCode : String
  subjectName : String
  facultySelected : String
deriving DecidableEq, Repr

/-- The new choice row appended for one selection (app.py lines 453-462). -/
def ChoiceRow.mkNew (regd nm yr sec : String) (s : Selection) : ChoiceRow :=
  ⟨regd, nm, yr, sec, s.subjectCode, s.subjectName, s.facultySelected⟩

/-- The `submit_choices` handler, app.py lines 442-466: reload the
Choices table (here the argument `choices`), drop every row whose
Regd_No equals this student's and whose Subject_Code is among the codes
being submitted, append one new row per selection, and the result is
written back.  The `if not df_choices.empty` guards in the source are
no-ops on the empty table, so the unguarded filter/append is the same
function. -/
def submit_choices (choices : List ChoiceRow) (regd nm yr sec : String)
    (selections : List Selection) : List ChoiceRow :=
  choices.filter
      (fun r => !(r.regdNo == regd
        && (selections.map Selection.subjectCode).contains r.subjectCode))
    ++ selections.map (ChoiceRow.mkNew regd nm yr sec)

/-- Rows surviving the removal step never match a submitted
(registration number, subject code) key. -/
theorem filter_key_filter_kept (choices : List ChoiceRow) (regd : String)
    (codes : List String) (c : String) (hc : c ∈ codes) :
    (choices.filter
        (fun r => !(r.regdNo == regd && codes.contains r.subjectCode))).filter
        (fun r => r.regdNo == regd && r.subjectCode == c) = [] := by
  rw [List.filter_filter, List.filter_eq_nil_iff]
  intro r _ h
  simp only [Bool.and_eq_true, Bool.not_eq_true', beq_iff_eq] at h
  obtain ⟨⟨h1, h2⟩, h3⟩ := h
  simp [h1, h2, hc] at h3

/-- Among the freshly appended rows, a submitted key matches exactly the
row built from its own selection, provided the submitted subject codes
are pairwise distinct. -/
theorem filter_map_mkNew (regd nm yr sec : String) (s : Selection)
    (sels : List Selection)
    (hnd : (sels.map Selection.subjectCode).Nodup) (hs : s ∈ sels) :
    (sels.map (ChoiceRow.mkNew regd nm yr sec)).filter
        (fun r => r.regdNo == regd && r.subjectCode == s.subjectCode)
      = [ChoiceRow.mkNew regd nm yr sec s] := by
  induction sels with
  | nil => cases hs
  | cons a t ih =>
    rw [List.map_cons, List.nodup_cons] at hnd
    obtain ⟨ha, hndt⟩ := hnd
    rw [List.mem_cons] at hs
    rw [List.map_cons, List.filter_cons]
    rcases hs with rfl | hs
    · have hhead : ((ChoiceRow.mkNew regd nm yr sec s).regdNo == regd
          && (ChoiceRow.mkNew regd nm yr sec s).subjectCode == s.subjectCode)
          = true := by
        simp [ChoiceRow.mkNew]
      rw [if_pos hhead]
      have htail : (t.map (ChoiceRow.mkNew regd nm yr sec)).filter
          (fun r => r.regdNo == regd && r.subjectCode == s.subjectCode)
          = [] := by
        rw [List.filter_eq_nil_iff]
        intro r hr h
        rw [List.mem_map] at hr
        obtain ⟨u, hu, rfl⟩ := hr
        simp only [ChoiceRow.mkNew, Bool.and_eq_true, beq_iff_eq] at h
        exact ha (h.2 ▸ List.mem_map_of_mem Selection.subjectCode hu)
      rw [htail]
    · have hhead : ((ChoiceRow.mkNew regd nm yr sec a).regdNo == regd
          && (ChoiceRow.mkNew regd nm yr sec a).subjectCode == s.subjectCode)
          = false := by
        have hne : a.subjectCode ≠ s.subjectCode := by
          intro he
          exact ha (he ▸ List.mem_map_of_mem Selection.subjectCode hs)
        simp [ChoiceRow.mkNew, hne]
      rw [if_neg (by simp [hhead])]
      exact ih hndt hs

/-- After a submission, the table holds exactly one row per submitted
(registration number, subject code) key, and it is the freshly built
row. -/
theorem submit_choices_filter_key (choices : List ChoiceRow)
    (regd nm yr sec : String) (sels : List Selection)
    (hnd : (sels.map Selection.subjectCode).Nodup)
    (s : Selection) (hs : s ∈ sels) :
    (submit_choices choices regd nm yr sec sels).filter
        (fun r => r.regdNo == regd && r.subjectCode == s.subjectCode)
      = [ChoiceRow.mkNew regd nm yr sec s] := by
  unfold submit_choices
  rw [List.filter_append,
    filter_key_filter_kept choices regd _ s.subjectCode
      (List.mem_map_of_mem Selection.subjectCode hs),
    filter_map_mkNew regd nm yr sec s sels hnd hs, List.nil_append]

/-- A row keyed outside the submission (different registration number,
or a subject code not being submitted) keeps its exact multiplicity. -/
theorem submit_choices_count_frame (choices : List ChoiceRow)
    (regd nm yr sec : String) (sels : List Selection) (r : ChoiceRow)
    (hr : r.regdNo ≠ regd ∨ r.subjectCode ∉ sels.map Selection.subjectCode) :
    (submit_choices choices regd nm yr sec sels).count r = choices.count r := by
  unfold submit_choices
  rw [List.count_append]
  have hnew : (sels.map (ChoiceRow.mkNew regd nm yr sec)).count r = 0 := by
    rw [List.count_eq_zero]
    intro hmem
    rw [List.mem_map] at hmem
    obtain ⟨u, hu, rfl⟩ := hmem
    rcases hr with h | h
    · exact h rfl
    · exact h (List.mem_map_of_mem Selection.subjectCode hu)
  have hkept : (choices.filter
      (fun x => !(x.regdNo == regd
        && (sels.map Selection.subjectCode).contains x.subjectCode))).count r
      = choices.count r := by
    refine List.count_filter ?_
    rcases hr with h | h
    · simp [h]
    · simp [h]
  rw [hnew, hkept, Nat.add_zero]

/-- C1: a submission for registration number R over pairwise-distinct
subject codes {S1..Sn} leaves exactly one row per (R, Si), carrying the
newly submitted faculty; every pre-existing row with a different
Regd_No or a subject code outside {S1..Sn} is present unchanged (same
multiplicity); and two submissions in sequence for the same R leave
exactly one row per (R, Si) reflecting the second submission. -/
theorem submit_choices_upsert_spec (choices : List ChoiceRow)
    (regd nm yr sec : String) (sels : List Selection)
    (hnd : (sels.map Selection.subjectCode).Nodup) :
    (∀ s ∈ sels,
      (submit_choices choices regd nm yr sec sels).filter
          (fun r => r.regdNo == regd && r.subjectCode == s.subjectCode)
        = [ChoiceRow.mkNew regd nm yr sec s])
    ∧ (∀ r ∈ choices,
        r.regdNo ≠ regd ∨ r.subjectCode ∉ sels.map Selection.subjectCode →
        (submit_choices choices regd nm yr sec sels).count r
          = choices.count r)
    ∧ (∀ (nm₀ yr₀ sec₀ : String) (sels₀ : List Selection), ∀ s ∈ sels,
        (submit_choices (submit_choices choices regd nm₀ yr₀ sec₀ sels₀)
            regd nm yr sec sels).filter
            (fun r => r.regdNo == regd && r.subjectCode == s.subjectCode)
          = [ChoiceRow.mkNew regd nm yr sec s]) :=
  ⟨fun s hs => submit_choices_filter_key choices regd nm yr sec sels hnd s hs,
   fun r _ hr => submit_choices_count_frame choices regd nm yr sec sels r hr,
   fun nm₀ yr₀ sec₀ sels₀ s hs =>
     submit_choices_filter_key (submit_choices choices regd nm₀ yr₀ sec₀ sels₀)
       regd nm yr sec sels hnd s hs⟩

/-- Witness for C1 at a concrete table and submission. -/
theorem submit_choices_upsert_spec_witness :
    (submit_choices [⟨"R2", "N", "1", "A", "S1", "Sub1", "F1"⟩]
        "R1" "Nm" "1" "A" [⟨"S1", "Sub1", "F2"⟩]).filter
        (fun r => r.regdNo == "R1" && r.subjectCode == "S1")
      = [ChoiceRow.mkNew "R1" "Nm" "1" "A" ⟨"S1", "Sub1", "F2"⟩] :=
  (submit_choices_upsert_spec [⟨"R2", "N", "1", "A", "S1", "Sub1", "F1"⟩]
      "R1" "Nm" "1" "A" [⟨"S1", "Sub1", "F2"⟩] (by decide)).1
    ⟨"S1", "Sub1", "F2"⟩ (by decide)

/-- One line of the faculty availability form (app.py lines 372-383):
a subject code, its name, and the Yes/No option picked in the form.
The appended row's Faculty_Name is always the logged-in faculty. -/
structure AvailChoice where
  subjectCode : String
  subjectName : String
  opt : String
deriving DecidableEq, Repr

/-- The `save_avail` handler, app.py lines 386-391: reload the
Availability table fresh (the argument `avail_df`), drop every row of
the logged-in faculty, append the freshly submitted rows, and the
result is written back. -/
def save_avail (avail_df : List AvailRow) (selected_faculty : String)
    (updated_rows : List AvailChoice) : List AvailRow :=
  avail_df.filter (fun r => !(r.facultyName == selected_faculty))
    ++ updated_rows.map
        (fun u => AvailRow.mk selected_faculty u.subjectCode u.subjectName u.opt)

/-- C3: an availability save by faculty F never alters, drops, or adds
a row belonging to a different faculty member: every row whose
Faculty_Name is not F keeps its exact multiplicity across the save. -/
theorem save_avail_preserves_other_faculty (avail_df : List AvailRow)
    (selected_faculty : String) (updated_rows : List AvailChoice)
    (r : AvailRow) (hr : r.facultyName ≠ selected_faculty) :
    (save_avail avail_df selected_faculty updated_rows).count r
      = avail_df.count r := by
  unfold save_avail
  rw [List.count_append]
  have h1 : (updated_rows.map
      (fun u => AvailRow.mk selected_faculty u.subjectCode u.subjectName u.opt)).count r
      = 0 := by
    rw [List.count_eq_zero]
    intro hmem
    rw [List.mem_map] at hmem
    obtain ⟨u, _, rfl⟩ := hmem
    exact hr rfl
  have h2 : (avail_df.filter
      (fun x => !(x.facultyName == selected_faculty))).count r
      = avail_df.count r :=
    List.count_filter (by simp [hr])
  rw [h1, h2, Nat.add_zero]

/-- Witness for C3: a save by Dr. A leaves Dr. B's row untouched. -/
theorem save_avail_preserves_other_faculty_witness :
    (save_avail [⟨"Dr. B", "CS101", "Intro", "No"⟩] "Dr. A"
        [⟨"CS101", "Intro", "Yes"⟩]).count ⟨"Dr. B", "CS101", "Intro", "No"⟩
      = ([⟨"Dr. B", "CS101", "Intro", "No"⟩] : List AvailRow).count
          ⟨"Dr. B", "CS101", "Intro", "No"⟩ :=
  save_avail_preserves_other_faculty [⟨"Dr. B", "CS101", "Intro", "No"⟩]
    "Dr. A" [⟨"CS101", "Intro", "Yes"⟩] ⟨"Dr. B", "CS101", "Intro", "No"⟩
    (by decide)

/-- C10: the remove-then-append availability save is idempotent: saving
the same submitted rows twice in sequence yields the same table as
saving them once. -/
theorem save_avail_idempotent (avail_df : List AvailRow)
    (selected_faculty : String) (updated_rows : List AvailChoice) :
    save_avail (save_avail avail_df selected_faculty updated_rows)
        selected_faculty updated_rows
      = save_avail avail_df selected_faculty updated_rows := by
  unfold save_avail
  rw [List.filter_append]
  have h1 : (avail_df.filter
      (fun x => !(x.facultyName == selected_faculty))).filter
      (fun x => !(x.facultyName == selected_faculty))
      = avail_df.filter (fun x => !(x.facultyName == selected_faculty)) := by
    rw [List.filter_filter]
    simp only [Bool.and_self]
  have h2 : (updated_rows.map
      (fun u => AvailRow.mk selected_faculty u.subjectCode u.subjectName u.opt)).filter
      (fun x => !(x.facultyName == selected_faculty)) = [] := by
    rw [List.filter_eq_nil_iff]
    intro r hr
    rw [List.mem_map] at hr
    obtain ⟨u, _, rfl⟩ := hr
    simp
  rw [h1, h2, List.append_nil]

/-- The cross-join built by `initialize_availability_if_empty`
(app.py lines 114-124) and by the admin reset button (lines 297-307):
one default "Yes" row for every faculty row and every subject row.  The
faculty table is embedded as its list of names: the loop reads only
`Faculty_Name` (or the first column, which `load_faculty` has already
normalized to `Faculty_Name`) from each faculty row. -/
def availability_rows (faculty_df : List String)
    (subjects_df : List SubjectRow) : List AvailRow :=
  faculty_df.flatMap (fun fname =>
    subjects_df.map (fun srow =>
      AvailRow.mk fname srow.subjectCode srow.subjectName "Yes"))

/-- The `initialize_availability_if_empty` routine, app.py lines
109-125: if either reference table is empty, return without writing;
if the Availability table is non-empty, write nothing; otherwise build
the cross-join and persist it.  `none` means no write happened, `some t`
means `t` was written to faculty_availability.csv. -/
def initialize_availability_if_empty (faculty_df : List String)
    (subjects_df : List SubjectRow) (avail_df : List AvailRow) :
    Option (List AvailRow) :=
  if faculty_df.isEmpty || subjects_df.isEmpty then none
  else if avail_df.isEmpty then
    some (availability_rows faculty_df subjects_df)
  else none

/-- Sum of a constant-valued map over a list. -/
theorem map_const_sum {α : Type} (l : List α) (n : ℕ) :
    (l.map (fun _ => n)).sum = l.length * n := by
  induction l with
  | nil => simp
  | cons a t ih => simp [ih, Nat.succ_mul, Nat.add_comm]

/-- The (Faculty_Name, Subject_Code) keys of the cross-join are exactly
the list product of the faculty names with the subject codes. -/
theorem availability_rows_keys (faculty_df : List String)
    (subjects_df : List SubjectRow) :
    (availability_rows faculty_df subjects_df).map
        (fun r => (r.facultyName, r.subjectCode))
      = faculty_df ×ˢ (subjects_df.map SubjectRow.subjectCode) := by
  show _ = faculty_df.flatMap
    (fun a => (subjects_df.map SubjectRow.subjectCode).map (Prod.mk a))
  unfold availability_rows
  rw [List.map_flatMap]
  congr 1
  funext f
  rw [List.map_map, List.map_map]
  rfl

/-- C2 counterexample: with a faculty list holding the same name twice
(name uniqueness is not enforced anywhere), initialization writes a
table with a duplicate (Faculty_Name, Subject_Code) pair, contradicting
the claimed no-duplicate-pairs property. -/
theorem initialize_availability_duplicate_pairs :
    ∃ t, initialize_availability_if_empty ["Dr. A", "Dr. A"]
          [⟨"1", "CS101", "Intro"⟩] [] = some t
      ∧ ¬ (t.map (fun r => (r.facultyName, r.subjectCode))).Nodup :=
  ⟨availability_rows ["Dr. A", "Dr. A"] [⟨"1", "CS101", "Intro"⟩],
    rfl, by decide⟩

/-- C2 (amended): with non-empty reference tables, an empty
Availability table, pairwise-distinct faculty names and
pairwise-distinct subject codes, initialization persists exactly
|Faculty| * |Subjects| rows, all defaulted to "Yes", with no duplicate
(Faculty_Name, Subject_Code) pair; if either reference table is empty
or Availability is already non-empty, nothing is written. -/
theorem initialize_availability_cross_join_spec (faculty_df : List String)
    (subjects_df : List SubjectRow) (avail_df : List AvailRow) :
    (faculty_df ≠ [] → subjects_df ≠ [] → avail_df = [] →
      faculty_df.Nodup → (subjects_df.map SubjectRow.subjectCode).Nodup →
      ∃ t, initialize_availability_if_empty faculty_df subjects_df avail_df
            = some t
        ∧ t.length = faculty_df.length * subjects_df.length
        ∧ (∀ r ∈ t, r.available = "Yes")
        ∧ (t.map (fun r => (r.facultyName, r.subjectCode))).Nodup)
    ∧ ((faculty_df = [] ∨ subjects_df = [] ∨ avail_df ≠ []) →
        initialize_availability_if_empty faculty_df subjects_df avail_df
          = none) := by
  constructor
  · intro hf hs ha hnf hns
    subst ha
    have h1 : (faculty_df.isEmpty || subjects_df.isEmpty) = false := by
      simp [List.isEmpty_iff, hf, hs]
    refine ⟨availability_rows faculty_df subjects_df, ?_, ?_, ?_, ?_⟩
    · simp [initialize_availability_if_empty, h1]
    · unfold availability_rows
      rw [List.length_flatMap]
      have : (List.map (List.length ∘ fun fname =>
          subjects_df.map (fun srow =>
            AvailRow.mk fname srow.subjectCode srow.subjectName "Yes"))
          faculty_df)
          = faculty_df.map (fun _ => subjects_df.length) := by
        refine List.map_congr_left ?_
        intro f _
        simp
      rw [this, map_const_sum]
    · intro r hr
      simp only [availability_rows, List.mem_flatMap, List.mem_map] at hr
      obtain ⟨f, _, s, _, rfl⟩ := hr
      rfl
    · rw [availability_rows_keys]
      exact List.Nodup.product hnf hns
  · intro h
    rcases h with rfl | rfl | ha
    · rfl
    · simp [initialize_availability_if_empty]
    · cases havail : avail_df with
      | nil => exact absurd havail ha
      | cons a t =>
        unfold initialize_availability_if_empty
        split
        · rfl
        · rfl

/-- Witness for C2 (amended) at concrete reference tables. -/
theorem initialize_availability_cross_join_spec_witness :
    ∃ t, initialize_availability_if_empty ["Dr. A", "Dr. B"]
          [⟨"1", "CS101", "Intro"⟩] [] = some t
      ∧ t.length = 2 * 1
      ∧ (∀ r ∈ t, r.available = "Yes")
      ∧ (t.map (fun r => (r.facultyName, r.subjectCode))).Nodup :=
  (initialize_availability_cross_join_spec ["Dr. A", "Dr. B"]
      [⟨"1", "CS101", "Intro"⟩] []).1
    (by decide) (by decide) rfl (by decide) (by decide)

/-- Size of one group of `choices_df.groupby("Faculty_Selected").size()`
(app.py line 255): the number of choice rows naming the faculty. -/
def groupSizeBy (choices : List ChoiceRow) (fac : String) : Nat :=
  (choices.filter (fun r => r.facultySelected == fac)).length

/-- The per-faculty workload report `faculty_counts`, app.py line 255:
`groupby("Faculty_Selected").size()` yields one entry per distinct
Faculty_Selected value present (pandas sorts group keys ascending),
paired with the size of its group. -/
def faculty_counts (choices : List ChoiceRow) : List (String × Nat) :=
  (((choices.map ChoiceRow.facultySelected).dedup).mergeSort
      (fun a b => decide (a ≤ b))).map
    (fun f => (f, groupSizeBy choices f))

/-- The Choices table after student 21CS001 submits CS101 -> Dr. A and
then resubmits CS101 -> Dr. B (the spec's scenario with
Subjects = {(1, CS101, Intro)} and Faculty = {Dr. A, Dr. B}). -/
def scenario_t2 : List ChoiceRow :=
  submit_choices
    (submit_choices [] "21CS001" "Stu" "1" "A" [⟨"CS101", "Intro", "Dr. A"⟩])
    "21CS001" "Stu" "1" "A" [⟨"CS101", "Intro", "Dr. B"⟩]

/-- C4: after the resubmission the table holds exactly one row for
(21CS001, CS101) carrying Dr. B; the workload count of choices naming
Dr. A is 0, that of Dr. B is 1, and the groupby report is exactly
[(Dr. B, 1)]. -/
theorem workload_report_scenario :
    scenario_t2 = [⟨"21CS001", "Stu", "1", "A", "CS101", "Intro", "Dr. B"⟩]
    ∧ groupSizeBy scenario_t2 "Dr. A" = 0
    ∧ groupSizeBy scenario_t2 "Dr. B" = 1
    ∧ faculty_counts scenario_t2 = [("Dr. B", 1)] := by
  have ht2 : scenario_t2
      = [⟨"21CS001", "Stu", "1", "A", "CS101", "Intro", "Dr. B"⟩] := by decide
  refine ⟨ht2, by decide, by decide, ?_⟩
  rw [ht2]
  unfold faculty_counts
  have hd : (([⟨"21CS001", "Stu", "1", "A", "CS101", "Intro", "Dr. B"⟩] :
      List ChoiceRow).map ChoiceRow.facultySelected).dedup = ["Dr. B"] := by
    decide
  rw [hd, List.mergeSort_singleton]
  decide

/-- A generic table as pandas sees a CSV read with `dtype=str`: a list
of column names and the list of data rows (each a list of cells). -/
structure DataFrame where
  cols : List String
  rows : List (List String)
deriving DecidableEq, Repr

/-- Rename every column equal to `old` to `new`
(`df.rename(columns={old: new})`). -/
def renameCol (old new : String) (cols : List String) : List String :=
  cols.map (fun c => if c = old then new else c)

/-- The `load_subjects` helper, app.py lines 45-50: the outcome of
`pd.read_csv(SUBJECTS_FILE)` is the argument (`none` = the read raised);
any failure is replaced by an empty table with the canonical header. -/
def load_subjects : Option DataFrame → DataFrame
  | some df => df
  | none => ⟨["Year", "Subject_Code", "Subject_Name"], []⟩

/-- The `load_faculty` helper, app.py lines 52-61: on a successful read,
if `Faculty_Name` is absent and the table has at least one column, the
first column is renamed to `Faculty_Name`; any failure is replaced by an
empty table with the canonical header. -/
def load_faculty : Option DataFrame → DataFrame
  | some df =>
      if "Faculty_Name" ∈ df.cols then df
      else
        match df.cols with
        | [] => df
        | c :: _ => ⟨renameCol c "Faculty_Name" df.cols, df.rows⟩
  | none => ⟨["Faculty_Name"], []⟩

/-- The `load_choices` helper, app.py lines 63-67. -/
def load_choices : Option DataFrame → DataFrame
  | some df => df
  | none => ⟨["Regd_No", "Name", "Year", "Section", "Subject_Code",
      "Subject_Name", "Faculty_Selected"], []⟩

/-- The `load_availability` helper, app.py lines 69-73. -/
def load_availability : Option DataFrame → DataFrame
  | some df => df
  | none => ⟨["Faculty_Name", "Subject_Code", "Subject_Name", "Available"], []⟩

/-- C6: every table loader turns a failed read of its backing file into
an empty table whose columns are exactly the canonical header, instead
of propagating the failure (the loaders are total functions into
`DataFrame`). -/
theorem load_failure_returns_canonical_empty :
    ((load_subjects none).cols = ["Year", "Subject_Code", "Subject_Name"]
      ∧ (load_subjects none).rows = [])
    ∧ ((load_faculty none).cols = ["Faculty_Name"]
      ∧ (load_faculty none).rows = [])
    ∧ ((load_choices none).cols = ["Regd_No", "Name", "Year", "Section",
        "Subject_Code", "Subject_Name", "Faculty_Selected"]
      ∧ (load_choices none).rows = [])
    ∧ ((load_availability none).cols
        = ["Faculty_Name", "Subject_Code", "Subject_Name", "Available"]
      ∧ (load_availability none).rows = []) :=
  ⟨⟨rfl, rfl⟩, ⟨rfl, rfl⟩, ⟨rfl, rfl⟩, ⟨rfl, rfl⟩⟩

/-- The required column set of a subjects upload (app.py line 143). -/
def requiredSubjectCols : List String := ["Year", "Subject_Code", "Subject_Name"]

/-- The subjects upload handler, app.py lines 140-154: `stored` is the
current subjects.csv content; the `Option DataFrame` is the outcome of
`pd.read_csv` on the uploaded file (`none` = the read raised).  Returns
the subjects.csv content afterwards and whether an error message was
shown.  Only a validated upload overwrites the file. -/
def uploaded_subjects (stored : DataFrame) :
    Option DataFrame → DataFrame × Bool
  | none => (stored, true)
  | some df_sub =>
      if requiredSubjectCols.all (fun c => df_sub.cols.contains c) then
        (df_sub, false)
      else (stored, true)

/-- C5: an uploaded subjects table missing any of
{Year, Subject_Code, Subject_Name} is rejected with an error and the
stored Subjects file is unchanged; a table with all required columns
overwrites the file; a file whose read raises also leaves the stored
file unchanged. -/
theorem uploaded_subjects_schema_guard (stored df : DataFrame) :
    (¬ (requiredSubjectCols.all (fun c => df.cols.contains c) = true) →
      uploaded_subjects stored (some df) = (stored, true))
    ∧ (requiredSubjectCols.all (fun c => df.cols.contains c) = true →
      uploaded_subjects stored (some df) = (df, false))
    ∧ uploaded_subjects stored none = (stored, true) := by
  refine ⟨fun h => ?_, fun h => ?_, rfl⟩
  · show (if (requiredSubjectCols.all fun c => df.cols.contains c) = true
        then (df, false) else (stored, true)) = (stored, true)
    rw [if_neg h]
  · show (if (requiredSubjectCols.all fun c => df.cols.contains c) = true
        then (df, false) else (stored, true)) = (df, false)
    rw [if_pos h]

/-- Witness for C5: an upload missing Subject_Name is rejected and the
stored file survives unchanged. -/
theorem uploaded_subjects_schema_guard_witness :
    uploaded_subjects ⟨["Year", "Subject_Code", "Subject_Name"],
        [["1", "CS101", "Intro"]]⟩ (some ⟨["Year", "Subject_Code"], []⟩)
      = (⟨["Year", "Subject_Code", "Subject_Name"], [["1", "CS101", "Intro"]]⟩,
        true) :=
  (uploaded_subjects_schema_guard
      ⟨["Year", "Subject_Code", "Subject_Name"], [["1", "CS101", "Intro"]]⟩
      ⟨["Year", "Subject_Code"], []⟩).1 (by decide)

/-- Prefix test on character lists. -/
def charsStartWith : List Char → List Char → Bool
  | [], _ => true
  | _ :: _, [] => false
  | p :: ps, x :: xs => p == x && charsStartWith ps xs

/-- Substring test on character lists. -/
def charsContain (pat : List Char) : List Char → Bool
  | [] => charsStartWith pat []
  | x :: xs => charsStartWith pat (x :: xs) || charsContain pat xs

/-- The candidate-column test `"name" in c.lower()` of app.py line 170,
over the column header's characters lowercased. -/
def containsNameCI (c : String) : Bool :=
  charsContain "name".data (c.data.map Char.toLower)

/-- The faculty upload handler, app.py lines 161-184: if the uploaded
table has a `Faculty_Name` column it is stored as-is; otherwise the
first column whose lowercased header contains "name" is renamed to
`Faculty_Name` and the result stored; if no such column exists the page
stops with an error and nothing is written.  `none` input = the read
raised. -/
def uploaded_faculty (stored : DataFrame) :
    Option DataFrame → DataFrame × Bool
  | none => (stored, true)
  | some df_fac =>
      if df_fac.cols.contains "Faculty_Name" then (df_fac, false)
      else
        match df_fac.cols.find? containsNameCI with
        | some candidate =>
            (⟨renameCol candidate "Faculty_Name" df_fac.cols, df_fac.rows⟩,
              false)
        | none => (stored, true)

/-- C7: a valid subjects upload is stored exactly as uploaded; a faculty
upload with a `Faculty_Name` column is stored exactly as uploaded; a
faculty upload without it, whose first "name"-containing column (header
matched case-insensitively) is `c`, is stored with `c` renamed to
`Faculty_Name`, all other columns and every cell value preserved. -/
theorem upload_preserves_content (storedS storedF dfs dff : DataFrame) :
    (requiredSubjectCols.all (fun c => dfs.cols.contains c) = true →
      uploaded_subjects storedS (some dfs) = (dfs, false))
    ∧ (dff.cols.contains "Faculty_Name" = true →
      uploaded_faculty storedF (some dff) = (dff, false))
    ∧ (∀ c, dff.cols.contains "Faculty_Name" = false →
      dff.cols.find? containsNameCI = some c →
      containsNameCI c = true
      ∧ (uploaded_faculty storedF (some dff)).1.cols
          = renameCol c "Faculty_Name" dff.cols
      ∧ (uploaded_faculty storedF (some dff)).1.rows = dff.rows
      ∧ (uploaded_faculty storedF (some dff)).2 = false) := by
  refine ⟨fun h => ?_, fun h => ?_, fun c h1 h2 => ?_⟩
  · show (if (requiredSubjectCols.all fun c => dfs.cols.contains c) = true
        then (dfs, false) else (storedS, true)) = (dfs, false)
    rw [if_pos h]
  · show (if dff.cols.contains "Faculty_Name" = true then (dff, false)
        else
          match dff.cols.find? containsNameCI with
          | some candidate =>
              (⟨renameCol candidate "Faculty_Name" dff.cols, dff.rows⟩, false)
          | none => (storedF, true)) = (dff, false)
    rw [if_pos h]
  · refine ⟨List.find?_some h2, ?_⟩
    have hred : uploaded_faculty storedF (some dff)
        = (⟨renameCol c "Faculty_Name" dff.cols, dff.rows⟩, false) := by
      show (if dff.cols.contains "Faculty_Name" = true then (dff, false)
          else
            match dff.cols.find? containsNameCI with
            | some candidate =>
                (⟨renameCol candidate "Faculty_Name" dff.cols, dff.rows⟩, false)
            | none => (storedF, true))
        = (⟨renameCol c "Faculty_Name" dff.cols, dff.rows⟩, false)
      rw [if_neg (by simpa using h1), h2]
    rw [hred]
    exact ⟨rfl, rfl, rfl⟩

/-- Witness for C7: a valid subjects upload, a faculty upload carrying
`Faculty_Name`, and a faculty upload whose `Name` column is renamed. -/
theorem upload_preserves_content_witness :
    uploaded_subjects ⟨["Year"], []⟩
        (some ⟨["Year", "Subject_Code", "Subject_Name"], [["1", "C", "N"]]⟩)
      = (⟨["Year", "Subject_Code", "Subject_Name"], [["1", "C", "N"]]⟩, false)
    ∧ uploaded_faculty ⟨["Faculty_Name"], []⟩
        (some ⟨["Faculty_Name", "Dept"], [["Dr. A", "CSE"]]⟩)
      = (⟨["Faculty_Name", "Dept"], [["Dr. A", "CSE"]]⟩, false)
    ∧ (uploaded_faculty ⟨["Faculty_Name"], []⟩
          (some ⟨["ID", "Name"], [["1", "Dr. A"]]⟩)).1.cols
        = renameCol "Name" "Faculty_Name" ["ID", "Name"] :=
  ⟨(upload_preserves_content ⟨["Year"], []⟩ ⟨["Faculty_Name"], []⟩
      ⟨["Year", "Subject_Code", "Subject_Name"], [["1", "C", "N"]]⟩
      ⟨["Faculty_Name", "Dept"], [["Dr. A", "CSE"]]⟩).1 (by decide),
   (upload_preserves_content ⟨["Year"], []⟩ ⟨["Faculty_Name"], []⟩
      ⟨["Year", "Subject_Code", "Subject_Name"], [["1", "C", "N"]]⟩
      ⟨["Faculty_Name", "Dept"], [["Dr. A", "CSE"]]⟩).2.1 (by decide),
   ((upload_preserves_content ⟨["Year"], []⟩ ⟨["Faculty_Name"], []⟩
      ⟨["Year", "Subject_Code", "Subject_Name"], [["1", "C", "N"]]⟩
      ⟨["ID", "Name"], [["1", "Dr. A"]]⟩).2.2 "Name"
      (by decide) (by decide)).2.1⟩

/-- The candidate list offered for every subject in the student form,
app.py lines 428-431: `sorted(...unique())` of the Faculty_Name column,
i.e. the distinct faculty names in ascending order. -/
def all_faculties (faculty_names : List String) : List String :=
  (faculty_names.dedup).mergeSort (fun a b => decide (a ≤ b))

/-- One subject line of the student selection form (app.py line 437):
the subject and the candidate faculty list of its selectbox. -/
structure FormLine where
  subjectCode : String
  subjectName : String
  candidates : List String
deriving DecidableEq, Repr

/-- The faculty selection form, app.py lines 425-440: one line per
subject row whose Year matches the chosen year, each offering the full
candidate list `all_faculties`.  The availability table is page state
(`avail_df`, app.py line 106) but lines 425-440 never read it; it is an
argument here so independence from its contents is statable. -/
def faculty_selection_form (subjects_df : List SubjectRow)
    (faculty_names : List String) (avail_df : List AvailRow)
    (year : String) : List FormLine :=
  (subjects_df.filter (fun r => r.year == year)).map
    (fun r => ⟨r.subjectCode, r.subjectName, all_faculties faculty_names⟩)

/-- C8: the form is identical for any two Availability tables; its
candidate lists hold exactly the distinct faculty names, so a faculty
member who marked "No" for a subject is still offered; and a student's
choice of that faculty is accepted and persisted by `submit_choices`. -/
theorem selection_independent_of_availability (subjects_df : List SubjectRow)
    (faculty_names : List String) (avail_df avail_df' : List AvailRow)
    (choices : List ChoiceRow) (regd nm yr sec f scode sname : String)
    (hf : f ∈ faculty_names)
    (hno : AvailRow.mk f scode sname "No" ∈ avail_df) :
    faculty_selection_form subjects_df faculty_names avail_df yr
      = faculty_selection_form subjects_df faculty_names avail_df' yr
    ∧ (∀ g, g ∈ all_faculties faculty_names ↔ g ∈ faculty_names)
    ∧ (∀ line ∈ faculty_selection_form subjects_df faculty_names avail_df yr,
        f ∈ line.candidates)
    ∧ ChoiceRow.mk regd nm yr sec scode sname f
        ∈ submit_choices choices regd nm yr sec [Selection.mk scode sname f] := by
  refine ⟨rfl, fun g => ?_, fun line hline => ?_, ?_⟩
  · simp only [all_faculties, List.mem_mergeSort, List.mem_dedup]
  · simp only [faculty_selection_form, List.mem_map] at hline
    obtain ⟨r, _, rfl⟩ := hline
    show f ∈ all_faculties faculty_names
    simp only [all_faculties, List.mem_mergeSort, List.mem_dedup]
    exact hf
  · unfold submit_choices
    refine List.mem_append_right _ ?_
    simp [ChoiceRow.mkNew]

/-- Witness for C8 with one subject, one faculty member marked "No". -/
theorem selection_independent_of_availability_witness :
    faculty_selection_form [⟨"1", "CS101", "Intro"⟩] ["Dr. A"]
        [⟨"Dr. A", "CS101", "Intro", "No"⟩] "1"
      = faculty_selection_form [⟨"1", "CS101", "Intro"⟩] ["Dr. A"] [] "1"
    ∧ (∀ g, g ∈ all_faculties ["Dr. A"] ↔ g ∈ ["Dr. A"])
    ∧ (∀ line ∈ faculty_selection_form [⟨"1", "CS101", "Intro"⟩] ["Dr. A"]
          [⟨"Dr. A", "CS101", "Intro", "No"⟩] "1",
        "Dr. A" ∈ line.candidates)
    ∧ ChoiceRow.mk "R1" "Nm" "1" "A" "CS101" "Intro" "Dr. A"
        ∈ submit_choices [] "R1" "Nm" "1" "A"
            [Selection.mk "CS101" "Intro" "Dr. A"] :=
  selection_independent_of_availability [⟨"1", "CS101", "Intro"⟩] ["Dr. A"]
    [⟨"Dr. A", "CS101", "Intro", "No"⟩] [] [] "R1" "Nm" "1" "A" "Dr. A"
    "CS101" "Intro" (by decide) (by decide)

/-- C9: a pre-existing choice row of this registration number whose
subject code is outside the current submission survives the submission
unchanged (same row, same multiplicity, hence its original Name, Year
and Section); every row of the result is either such a pre-existing row
or carries the identity fields of the current session; and concretely a
resubmission under the same registration number with different identity
fields leaves rows for that number disagreeing on Name, Year and
Section. -/
theorem submit_choices_identity_frame (choices : List ChoiceRow)
    (regd nm yr sec : String) (sels : List Selection) :
    (∀ r ∈ choices, r.regdNo = regd →
      r.subjectCode ∉ sels.map Selection.subjectCode →
      (submit_choices choices regd nm yr sec sels).count r = choices.count r)
    ∧ (∀ r ∈ submit_choices choices regd nm yr sec sels,
        r ∈ choices
        ∨ (r.regdNo = regd ∧ r.name = nm ∧ r.year = yr ∧ r.«section» = sec))
    ∧ (ChoiceRow.mk "R1" "Alice" "1" "A" "S1" "Sub1" "F1"
          ∈ submit_choices (submit_choices [] "R1" "Alice" "1" "A"
              [⟨"S1", "Sub1", "F1"⟩]) "R1" "Bob" "2" "B" [⟨"S2", "Sub2", "F1"⟩]
        ∧ ChoiceRow.mk "R1" "Bob" "2" "B" "S2" "Sub2" "F1"
          ∈ submit_choices (submit_choices [] "R1" "Alice" "1" "A"
              [⟨"S1", "Sub1", "F1"⟩]) "R1" "Bob" "2" "B"
              [⟨"S2", "Sub2", "F1"⟩]) := by
  refine ⟨fun r _ h1 h2 =>
      submit_choices_count_frame choices regd nm yr sec sels r (Or.inr h2),
    fun r hr => ?_, by decide⟩
  rcases List.mem_append.mp hr with h | h
  · exact Or.inl (List.mem_filter.mp h).1
  · rw [List.mem_map] at h
    obtain ⟨u, _, rfl⟩ := h
    exact Or.inr ⟨rfl, rfl, rfl, rfl⟩

/-- Witness for C9: a row for subject S1 of registration number R1
survives a resubmission by R1 for subject S2 under a different name. -/
theorem submit_choices_identity_frame_witness :
    (submit_choices [⟨"R1", "Alice", "1", "A", "S1", "Sub1", "F1"⟩]
        "R1" "Bob" "2" "B" [⟨"S2", "Sub2", "F2"⟩]).count
        ⟨"R1", "Alice", "1", "A", "S1", "Sub1", "F1"⟩
      = ([⟨"R1", "Alice", "1", "A", "S1", "Sub1", "F1"⟩] : List ChoiceRow).count
          ⟨"R1", "Alice", "1", "A", "S1", "Sub1", "F1"⟩ :=
  (submit_choices_identity_frame
      [⟨"R1", "Alice", "1", "A", "S1", "Sub1", "F1"⟩]
      "R1" "Bob" "2" "B" [⟨"S2", "Sub2", "F2"⟩]).1
    ⟨"R1", "Alice", "1", "A", "S1", "Sub1", "F1"⟩ (by decide) rfl (by decide)

end FacultyApp
